import Mathlib

/-!
Shallow embedding of `jakebailey/twitchmqtt` (src/main.go): a relay between
Twitch IRC and an MQTT broker.  Pure logic (config validation, message
translation, channel normalization) is embedded as Lean functions; the
effectful parts of `Connection.run`, the shutdown waiter, the subscribe
callback and `restartProcess` are embedded as functions from their inputs
(decode results, failure flags) to explicit effect records (writes to the
session, broker publications, log lines, loop and process outcomes), and
the multi-connection behaviour around a RECONNECT directive as a small
step-function transition system.  Go `byte` QOS values are modelled as
`Nat` (validation only compares them with 2); Go strings are Lean
`String`s, with Go byte-index-0 reads modelled on `String.data` (the only
byte ever compared is ASCII `'#'`, for which first-byte equality and
first-char equality coincide in UTF-8), and `strings.HasPrefix` modelled
as `List.isPrefixOf` on `String.data` (the prefix `"oauth:"` is ASCII, so
byte-prefix and char-prefix coincide).
-/

/-- One IRC message, mirroring `irc.Message` as used by main.go: command,
ordered parameter list, trailing free text, and the raw wire line. -/
structure IRCMessage where
  command : String
  params : List String
  trailing : String
  raw : String
deriving Repr, DecidableEq

/-- The `Publish` section of a `Connection` (main.go:116-120). -/
structure PublishConfig where
  topic : String
  qos : Nat
  channels : List String
deriving Repr, DecidableEq

/-- The `Subscribe` section of a `Connection` (main.go:122-125). -/
structure SubscribeConfig where
  topic : String
  qos : Nat
deriving Repr, DecidableEq

/-- A connection config (main.go:112-126). -/
structure Connection where
  nick : String
  pass : String
  publish : PublishConfig
  subscribe : SubscribeConfig
deriving Repr, DecidableEq

/-- The seven validation errors of main.go:28-36. -/
inductive ValidateError where
  | errEmptyNick
  | errEmptyPass
  | errNonOauthPass
  | errBadTopics
  | errChannelsNoTopic
  | errBadQOS
  | errEmptyChannel
deriving Repr, DecidableEq

/-- `Connection.validate` (main.go:128-160), checks in source order.  The
Go loop over `c.Publish.Channels` returning `errEmptyChannel` at the
first empty name is rendered as `List.any`: it fails exactly when some
listed name is empty, and the returned error is the same either way.
`strings.HasPrefix(c.Pass, "oauth:")` is `"oauth:".data.isPrefixOf
c.pass.data`.  `none` models the Go `nil` error. -/
def Connection.validate (c : Connection) : Option ValidateError :=
  if c.nick = "" then some .errEmptyNick
  else if c.pass = "" then some .errEmptyPass
  else if ¬ ("oauth:".data.isPrefixOf c.pass.data) then some .errNonOauthPass
  else if c.publish.topic = c.subscribe.topic then some .errBadTopics
  else if 0 < c.publish.channels.length ∧ c.publish.topic = "" then some .errChannelsNoTopic
  else if 2 < c.publish.qos ∨ 2 < c.subscribe.qos then some .errBadQOS
  else if c.publish.channels.any (fun s => s = "") then some .errEmptyChannel
  else none

/-- Helper: the exact success condition of `Connection.validate`, stated
declaratively. -/
def ValidOK (c : Connection) : Prop :=
  c.nick ≠ "" ∧ c.pass ≠ "" ∧ "oauth:".data.isPrefixOf c.pass.data ∧
    c.publish.topic ≠ c.subscribe.topic ∧
    (c.publish.channels ≠ [] → c.publish.topic ≠ "") ∧
    c.publish.qos ≤ 2 ∧ c.subscribe.qos ≤ 2 ∧
    (∀ s ∈ c.publish.channels, s ≠ "")

/-- Result of one `conn.Decode(&m)` call in the read loop (main.go:240-246):
a decoded message, a clean end of stream (`io.EOF`), or any other decode
error (carried as its error text). -/
inductive DecodeResult where
  | ok (m : IRCMessage)
  | eof
  | err (e : String)
deriving Repr, DecidableEq

/-- One `conn.Encode` call on the shared session, together with whether
the caller holds the connection's mutex `mu` at that point. -/
structure SessionWrite where
  msg : IRCMessage
  underLock : Bool
deriving Repr, DecidableEq

/-- How one iteration of the read loop ends.  `nextMessage` is a normal
`continue` or fall-through to the next decode; `exitLoop` is the `break`
on `io.EOF` (only this connection drains); `fatalProcess` is `log.Fatal`
(the whole process terminates, every connection included); `restart` is
the RECONNECT path (sleep one second, then `restartProcess`). -/
inductive LoopOutcome where
  | nextMessage
  | exitLoop
  | fatalProcess
  | restart
deriving Repr, DecidableEq

/-- Observable effects of one read-loop iteration: session writes (with
their lock status), broker publications (topic, QOS, published message),
log lines, and how the iteration ends. -/
structure StepEffects where
  writes : List SessionWrite
  publishes : List (String × Nat × IRCMessage)
  logs : List String
  outcome : LoopOutcome
deriving Repr, DecidableEq

/-- The high-volume commands suppressed from non-debug logging
(main.go:252). -/
def noiseSuppressed : List String :=
  ["PRIVMSG", "NOTICE", "USERNOTICE", "PING", "CLEARCHAT", "HOSTTARGET"]

/-- The per-message logging filter (main.go:248-257): in debug mode every
raw line is echoed; otherwise the commands in `noiseSuppressed` are
silent and everything else is echoed. -/
def messageLog (debug : Bool) (m : IRCMessage) : List String :=
  if debug then [m.raw]
  else if noiseSuppressed.contains m.command then [] else [m.raw]

/-- One iteration of the read loop of `Connection.run` (main.go:239-285)
as a function of the decode result.  `io.EOF` breaks out of the loop
silently; any other decode error is `log.Fatal` (logged, process-fatal).
A PING is rewritten in place to a PONG (parameters, trailing and raw
preserved) and encoded back WITHOUT taking `mu` (main.go:259-265), then
the iteration `continue`s, skipping the publish step.  Otherwise, when a
publish topic is configured the message is published there at the
configured QOS (main.go:267-278; `json.Marshal` of a struct of strings
cannot fail, so the marshal-error branch is unreachable, and a publish
error is logged without stopping the loop).  A RECONNECT command then
takes the restart path (main.go:280-284). -/
def runLoopStep (debug : Bool) (c : Connection) (r : DecodeResult) : StepEffects :=
  match r with
  | .eof => { writes := [], publishes := [], logs := [], outcome := .exitLoop }
  | .err e => { writes := [], publishes := [], logs := [e], outcome := .fatalProcess }
  | .ok m =>
    if m.command = "PING" then
      { writes := [{ msg := { m with command := "PONG" }, underLock := false }],
        publishes := [], logs := messageLog debug m, outcome := .nextMessage }
    else
      let pubs := if c.publish.topic ≠ "" then [(c.publish.topic, c.publish.qos, m)] else []
      { writes := [], publishes := pubs, logs := messageLog debug m,
        outcome := if m.command = "RECONNECT" then .restart else .nextMessage }

/-- The JSON payload shape consumed by the subscribe callback
(main.go:190-193): `{channel: string, message: string}`. -/
structure BrokerEnvelope where
  channel : String
  message : String
deriving Repr, DecidableEq

/-- Result of one subscribe-callback invocation: the session writes it
performs, or an index-out-of-range panic. -/
inductive CallbackResult where
  | writes (ws : List SessionWrite)
  | panic
deriving Repr, DecidableEq

/-- The channel-name normalization pattern that appears twice in main.go:
in the subscribe callback (main.go:205-207) and in `join`
(main.go:341-345): prepend `'#'` when the first byte is not `'#'`.
`none` models the index-out-of-range panic the Go expression `s[0]`
raises on an empty string. -/
def normChan (s : String) : Option String :=
  match s.data with
  | [] => none
  | ch :: _ => some (if ch ≠ '#' then "#" ++ s else s)

/-- Helper: the value `normChan` produces on a non-empty string (total
companion of `normChan`, used to state what `join` writes back). -/
def normChanTotal (s : String) : String :=
  match s.data with
  | [] => s
  | ch :: _ => if ch ≠ '#' then "#" ++ s else s

/-- The normalization loop of `join` (main.go:341-345) over the whole
channel array, in order; `none` models the panic raised at the first
empty name. -/
def normChanList : List String → Option (List String)
  | [] => some []
  | s :: rest =>
    match normChan s with
    | none => none
    | some s2 =>
      match normChanList rest with
      | none => none
      | some rest2 => some (s2 :: rest2)

/-- The broker-subscribe callback (main.go:189-230) as a function of the
JSON decode of the delivered payload (`none` models a `json.Unmarshal`
error, which is logged and dropped).  An empty channel or empty message
is logged and dropped; otherwise the channel name is normalized and one
PRIVMSG is encoded to the session while holding `mu` (main.go:224-227).
The constructed `irc.Message` leaves `Raw` at its zero value. -/
def subscribeCallback (payload : Option BrokerEnvelope) : CallbackResult :=
  match payload with
  | none => .writes []
  | some msg =>
    if msg.channel = "" then .writes []
    else
      match normChan msg.channel with
      | none => .panic
      | some channel =>
        if msg.message = "" then .writes []
        else
          .writes [{ msg := { command := "PRIVMSG", params := [channel],
                              trailing := msg.message, raw := "" },
                     underLock := true }]

/-- `join` (main.go:336-351).  With no channels it encodes nothing and
returns nil.  The Go loop rewrites `channels[i] = "#" + s` IN PLACE when
the first byte of `s` is not `'#'` (panicking on an empty name: `none`),
then encodes one JOIN whose single parameter is the comma-join of the
now-rewritten names.  The result pair is (the channel array after the
loop, the encoded messages). -/
def join (channels : List String) : Option (List String × List IRCMessage) :=
  if channels.length = 0 then some (channels, [])
  else
    match normChanList channels with
    | none => none
    | some normed =>
      some (normed,
        [{ command := "JOIN", params := [String.intercalate "," normed],
           trailing := "", raw := "" }])

/-- The connection config as it stands after `run`'s call
`join(conn, c.Publish.Channels...)` (main.go:173): a variadic call on an
existing slice passes the config's own backing array, so the in-place
rewrites inside `join` land in `c.Publish.Channels`.  `none` models the
panic on an empty name. -/
def configAfterJoin (c : Connection) : Option Connection :=
  match join c.publish.channels with
  | none => none
  | some r =>
    some { c with publish := { c.publish with channels := r.1 } }

/-- The login sequence of `login` (main.go:309-322): a PASS message then a
NICK message. -/
def login (nick pass : String) : List IRCMessage :=
  [{ command := "PASS", params := [pass], trailing := "", raw := "" },
   { command := "NICK", params := [nick], trailing := "", raw := "" }]

/-- `capReq` (main.go:324-334): nothing for an empty capability list,
otherwise one CAP REQ message whose trailing is the space-join. -/
def capReq (caps : List String) : List IRCMessage :=
  if caps.length = 0 then []
  else
    [{ command := "CAP", params := ["REQ"],
       trailing := String.intercalate " " caps, raw := "" }]

/-- The QUIT message encoded by `quit` (main.go:353-357): all other fields
are zero values. -/
def quitMessage : IRCMessage :=
  { command := "QUIT", params := [], trailing := "", raw := "" }

/-- Which step of connection setup failed. -/
inductive SetupError where
  | dialError
  | loginError
  | capReqError
deriving Repr, DecidableEq

/-- `createIRCConn` (main.go:288-307) as a function of which step fails:
the TLS dial, then the PASS/NICK login encodes, then the CAP REQ encode.
The first failure is returned to the caller; a later step never runs
after an earlier failure. -/
def createIRCConn (dialFails loginFails capReqFails : Bool) : Option SetupError :=
  if dialFails then some .dialError
  else if loginFails then some .loginError
  else if capReqFails then some .capReqError
  else none

/-- Fate of one connection's task relative to the rest of the process:
`abandoned` is `log.Println(err); return` (only this goroutine stops),
`processFatal` is `log.Fatal(err)` (the whole process exits non-zero),
`running` means setup succeeded and the read loop starts. -/
inductive ConnFate where
  | abandoned
  | processFatal
  | running
deriving Repr, DecidableEq

/-- The setup phase of `Connection.run` (main.go:166-175): a
`createIRCConn` error is logged with `log.Println` and the goroutine
returns — only this connection is abandoned and `join` never runs — while
a `join` error is passed to `log.Fatal`, terminating the whole
process. -/
def runSetup (dialFails loginFails capReqFails joinFails : Bool) : ConnFate :=
  match createIRCConn dialFails loginFails capReqFails with
  | some _ => .abandoned
  | none => if joinFails then .processFatal else .running

/-- The shutdown waiter goroutine (main.go:177-184): once the stop channel
closes it takes `mu` and attempts exactly one quit encode under the lock;
on an encode error it calls `log.Fatal`.  The result records the write
attempt and whether `log.Fatal` fired (the process dying with a non-zero
exit code). -/
def shutdownWaiter (quitEncodeFails : Bool) : List SessionWrite × Bool :=
  ([{ msg := quitMessage, underLock := true }], quitEncodeFails)

/-- The exit code of an interrupt-driven shutdown (main.go:104-110
together with the `log.Fatal` inside each waiter): `log.Fatal` exits the
process with code 1; otherwise `main` returns after `wg.Wait()` and the
process exits 0.  The input lists, one entry per connection, whether that
connection's quit encode failed. -/
def shutdownExitCode (quitFailures : List Bool) : Nat :=
  if quitFailures.any (fun b => b) then 1 else 0

/-- The process identity saved at package initialization (main.go:359-363)
from `os.Args` and `os.Environ`, used by `restartProcess`. -/
structure ProcessImage where
  argv0 : String
  argv : List String
  envv : List String
deriving Repr, DecidableEq

/-- What becomes of the process when `restartProcess` runs. -/
inductive RestartFate where
  | replacedInPlace (img : ProcessImage)
  | fatalExit
deriving Repr, DecidableEq

/-- `restartProcess` (main.go:365-367): `syscall.Exec(argv0, argv, envv)`
replaces the process in place with the same binary path, arguments and
environment; `syscall.Exec` only returns on failure, in which case
`log.Fatal` terminates the process. -/
def restartProcess (saved : ProcessImage) (execFails : Bool) : RestartFate :=
  if execFails then .fatalExit else .replacedInPlace saved

/-- Global state of the multi-connection relay around a RECONNECT
directive: per-connection queues of still-undecoded inbound messages, the
connections sleeping in the fixed one-second delay between observing
RECONNECT and the exec (main.go:282), whether the exec has already
replaced the process image, and the log of processed messages in
order. -/
structure RelayState where
  queues : List (List IRCMessage)
  sleeping : List Nat
  execDone : Bool
  processed : List (Nat × IRCMessage)
deriving Repr, DecidableEq

/-- An interleaving action: connection `i`'s read loop decodes and handles
its next message, or a sleeping connection's delay elapses and
`restartProcess` runs. -/
inductive RelayAction where
  | proc (i : Nat)
  | exec
deriving Repr, DecidableEq

/-- One interleaving step of the running process.  `proc i` is possible
while the process image has not been replaced and connection `i` is not
itself sleeping before the exec; handling a RECONNECT puts that
connection to sleep (`time.Sleep` before `restartProcess`,
main.go:280-284), during which the scheduler may keep running the other
goroutines.  `exec` is possible once some connection sleeps on the
directive; afterwards no goroutine of the old image can take any step. -/
def relayStep (s : RelayState) : RelayAction → Option RelayState
  | .proc i =>
    if s.execDone then none
    else if i ∈ s.sleeping then none
    else
      match s.queues.get? i with
      | none => none
      | some [] => none
      | some (m :: rest) =>
        some { queues := s.queues.set i rest,
               sleeping := if m.command = "RECONNECT" then i :: s.sleeping else s.sleeping,
               execDone := false,
               processed := s.processed ++ [(i, m)] }
  | .exec =>
    if s.execDone then none
    else if s.sleeping.isEmpty then none
    else some { s with execDone := true }

/-- Runs a list of interleaving actions from a state; `none` when some
action is not possible at its point in the sequence. -/
def runTrace (s : RelayState) : List RelayAction → Option RelayState
  | [] => some s
  | a :: rest =>
    match relayStep s a with
    | none => none
    | some s2 => runTrace s2 rest

lemma data_ne_nil_of_ne_empty {s : String} (h : s ≠ "") : s.data ≠ [] := by
  intro hd
  exact h (String.ext hd)

lemma append_hash_ne_empty (s : String) : "#" ++ s ≠ "" := by
  intro hcon
  have hdata : ("#" ++ s).data = [] := by rw [hcon]
  rw [String.data_append] at hdata
  simp at hdata

lemma validate_eq_none_iff (c : Connection) :
    c.validate = none ↔ ValidOK c := by
  unfold Connection.validate ValidOK
  by_cases h1 : c.nick = ""
  · simp [h1]
  rw [if_neg h1]
  by_cases h2 : c.pass = ""
  · simp [h1, h2]
  rw [if_neg h2]
  by_cases h3 : "oauth:".data.isPrefixOf c.pass.data
  case neg =>
    rw [if_pos h3]
    simp only [reduceCtorEq, false_iff]
    intro hcj; exact h3 hcj.2.2.1
  rw [if_neg (not_not_intro h3)]
  by_cases h4 : c.publish.topic = c.subscribe.topic
  · rw [if_pos h4]
    simp only [reduceCtorEq, false_iff]
    intro hcj; exact hcj.2.2.2.1 h4
  rw [if_neg h4]
  by_cases h5 : 0 < c.publish.channels.length ∧ c.publish.topic = ""
  · rw [if_pos h5]
    simp only [reduceCtorEq, false_iff]
    intro hcj
    exact hcj.2.2.2.2.1 (List.ne_nil_of_length_pos h5.1) h5.2
  rw [if_neg h5]
  by_cases h6 : 2 < c.publish.qos ∨ 2 < c.subscribe.qos
  · rw [if_pos h6]
    simp only [reduceCtorEq, false_iff]
    intro hcj
    rcases h6 with h6 | h6
    · exact absurd hcj.2.2.2.2.2.1 (by omega)
    · exact absurd hcj.2.2.2.2.2.2.1 (by omega)
  rw [if_neg h6]
  push_neg at h6
  by_cases h7 : c.publish.channels.any (fun s => s = "") = true
  · rw [if_pos h7]
    simp only [reduceCtorEq, false_iff]
    intro hcj
    rcases List.any_eq_true.mp h7 with ⟨s, hs, hdec⟩
    exact hcj.2.2.2.2.2.2.2 s hs (of_decide_eq_true hdec)
  · rw [if_neg h7]
    simp only [true_iff]
    refine ⟨h1, h2, h3, h4, ?_, by omega, by omega, ?_⟩
    · intro hne htop
      exact h5 ⟨List.length_pos.mpr hne, htop⟩
    · intro s hs hempty
      exact h7 (List.any_eq_true.mpr ⟨s, hs, decide_eq_true hempty⟩)

lemma validate_none_channels {c : Connection} (h : c.validate = none) :
    ∀ s ∈ c.publish.channels, s ≠ "" :=
  ((validate_eq_none_iff c).mp h).2.2.2.2.2.2.2

lemma normChan_eq_of_ne_empty {s : String} (h : s ≠ "") :
    normChan s = some (normChanTotal s) := by
  cases hd : s.data with
  | nil => exact absurd hd (data_ne_nil_of_ne_empty h)
  | cons ch t =>
    unfold normChan normChanTotal
    rw [hd]

lemma normChanTotal_ne_empty {s : String} (h : s ≠ "") : normChanTotal s ≠ "" := by
  cases hd : s.data with
  | nil => exact absurd hd (data_ne_nil_of_ne_empty h)
  | cons ch t =>
    have h1 : normChanTotal s = if ch ≠ '#' then "#" ++ s else s := by
      unfold normChanTotal; rw [hd]
    by_cases hp : ch = '#'
    · rw [h1]; simpa [hp] using h
    · rw [h1]; simpa [hp] using append_hash_ne_empty s

lemma normChanTotal_idem {s : String} (h : s ≠ "") :
    normChanTotal (normChanTotal s) = normChanTotal s := by
  cases hd : s.data with
  | nil => exact absurd hd (data_ne_nil_of_ne_empty h)
  | cons ch t =>
    have h1 : normChanTotal s = if ch ≠ '#' then "#" ++ s else s := by
      unfold normChanTotal; rw [hd]
    by_cases hp : ch = '#'
    · have h2 : normChanTotal s = s := by rw [h1]; simp [hp]
      rw [h2, h2]
    · have h2 : normChanTotal s = "#" ++ s := by rw [h1]; simp [hp]
      rw [h2]
      have hd2 : ("#" ++ s).data = '#' :: s.data := by
        rw [String.data_append]; rfl
      unfold normChanTotal
      rw [hd2]
      simp

lemma normChanList_eq (l : List String) (h : ∀ s ∈ l, s ≠ "") :
    normChanList l = some (l.map normChanTotal) := by
  induction l with
  | nil => rfl
  | cons a t ih =>
    have ha := h a (List.mem_cons_self a t)
    have ht := fun s hs => h s (List.mem_cons_of_mem a hs)
    simp [normChanList, normChan_eq_of_ne_empty ha, ih ht]

/-- Claim C2: `Connection.validate` succeeds (returns no error) iff the
nick is non-empty, the pass is non-empty and carries the `oauth:` prefix,
the publish topic differs from the subscribe topic, a non-empty channel
list implies a non-empty publish topic, both QOS values are at most 2,
and no listed channel name is empty; on every failure it returns exactly
one of the seven validation errors.  The embedding is a pure function by
construction, matching the source, which performs no I/O. -/
theorem validate_ok_iff (c : Connection) :
    (c.validate = none ↔
      (c.nick ≠ "" ∧ c.pass ≠ "" ∧ "oauth:".data.isPrefixOf c.pass.data ∧
        c.publish.topic ≠ c.subscribe.topic ∧
        (c.publish.channels ≠ [] → c.publish.topic ≠ "") ∧
        c.publish.qos ≤ 2 ∧ c.subscribe.qos ≤ 2 ∧
        (∀ s ∈ c.publish.channels, s ≠ ""))) ∧
      (c.validate = none ∨ ∃ e : ValidateError, c.validate = some e) := by
  constructor
  · have h := validate_eq_none_iff c
    unfold ValidOK at h
    exact h
  · cases h : c.validate with
    | none => exact Or.inl rfl
    | some e => exact Or.inr ⟨e, rfl⟩

/-- Claim C3: a decoded PING with parameters P and trailing T produces
exactly one write back, a PONG with the same P and T (and raw line), and
that message is never published to the broker — also when a publish topic
is configured, since the PING branch `continue`s before the publish
step. -/
theorem ping_pong_exact (debug : Bool) (c : Connection) (m : IRCMessage)
    (h : m.command = "PING") :
    (runLoopStep debug c (.ok m)).writes =
      [{ msg := { command := "PONG", params := m.params, trailing := m.trailing,
                  raw := m.raw }, underLock := false }] ∧
    (runLoopStep debug c (.ok m)).publishes = [] := by
  simp [runLoopStep, h]

theorem ping_pong_exact_witness :
    (runLoopStep false
        { nick := "bot", pass := "oauth:token",
          publish := { topic := "irc/out", qos := 1, channels := ["#chan"] },
          subscribe := { topic := "irc/in", qos := 1 } }
        (.ok { command := "PING", params := [], trailing := "tmi.twitch.tv",
               raw := "PING :tmi.twitch.tv" })).writes =
      [{ msg := { command := "PONG", params := [], trailing := "tmi.twitch.tv",
                  raw := "PING :tmi.twitch.tv" }, underLock := false }] ∧
    (runLoopStep false
        { nick := "bot", pass := "oauth:token",
          publish := { topic := "irc/out", qos := 1, channels := ["#chan"] },
          subscribe := { topic := "irc/in", qos := 1 } }
        (.ok { command := "PING", params := [], trailing := "tmi.twitch.tv",
               raw := "PING :tmi.twitch.tv" })).publishes = [] :=
  ping_pong_exact false
    { nick := "bot", pass := "oauth:token",
      publish := { topic := "irc/out", qos := 1, channels := ["#chan"] },
      subscribe := { topic := "irc/in", qos := 1 } }
    { command := "PING", params := [], trailing := "tmi.twitch.tv",
      raw := "PING :tmi.twitch.tv" }
    rfl

/-- Claim C5: a clean end of stream (`io.EOF`) exits the read loop
silently and normally (no writes, no publications, no log output; only
this connection proceeds toward closed), while any other decode error is
logged and is fatal to the whole process (`log.Fatal` terminates every
connection), not merely to the connection it occurred on. -/
theorem eof_silent_other_errors_fatal (debug : Bool) (c : Connection) (e : String) :
    runLoopStep debug c .eof =
      { writes := [], publishes := [], logs := [], outcome := .exitLoop } ∧
    runLoopStep debug c (.err e) =
      { writes := [], publishes := [], logs := [e], outcome := .fatalProcess } :=
  ⟨rfl, rfl⟩

/-- Claim C1 (code bug): the PONG reply in the read loop (main.go:259-265)
is encoded to the shared session WITHOUT taking the connection mutex
`mu`, unlike the subscribe callback (main.go:224-227) and the shutdown
waiter (main.go:179-181), which do hold it.  Evaluated at a concrete
decoded PING, the iteration's single session write does not hold the
lock, while the concurrent callback write and the quit write do — so the
three writers are NOT mutually exclusive under the per-connection
lock. -/
theorem pong_write_without_lock :
    ((runLoopStep false
        { nick := "bot", pass := "oauth:token",
          publish := { topic := "irc/out", qos := 0, channels := ["#chan"] },
          subscribe := { topic := "irc/in", qos := 0 } }
        (.ok { command := "PING", params := [], trailing := "tmi.twitch.tv",
               raw := "PING :tmi.twitch.tv" })).writes.all
      (fun w => w.underLock)) = false ∧
    subscribeCallback (some { channel := "chan", message := "hi" }) =
      .writes [{ msg := { command := "PRIVMSG", params := ["#chan"],
                          trailing := "hi", raw := "" }, underLock := true }] ∧
    ((shutdownWaiter false).1.all (fun w => w.underLock)) = true := by
  decide

/-- Claim C4: a delivered broker payload that JSON-decodes with non-empty
channel and non-empty message produces exactly one PRIVMSG write to the
session, whose single parameter is the channel name prefixed with `'#'`
when that prefix is missing and whose trailing is the message text; a
payload that fails to decode, or whose channel or message is empty,
produces zero session writes (the delivery is logged and dropped in the
source). -/
theorem subscribe_delivery_behaviour (env : BrokerEnvelope) :
    subscribeCallback none = .writes [] ∧
    (env.channel = "" → subscribeCallback (some env) = .writes []) ∧
    (env.message = "" → subscribeCallback (some env) = .writes []) ∧
    (env.channel ≠ "" → env.message ≠ "" →
      subscribeCallback (some env) =
        .writes [{ msg := { command := "PRIVMSG",
                            params := [(if env.channel.data.head? = some '#' then env.channel
                                        else "#" ++ env.channel)],
                            trailing := env.message, raw := "" },
                   underLock := true }]) := by
  refine ⟨rfl, ?_, ?_, ?_⟩
  · intro h
    simp [subscribeCallback, h]
  · intro h
    by_cases hch : env.channel = ""
    · simp [subscribeCallback, hch]
    · cases hdd : env.channel.data with
      | nil => exact absurd hdd (data_ne_nil_of_ne_empty hch)
      | cons ch t => simp [subscribeCallback, hch, normChan, hdd, h]
  · intro hch hm
    cases hdd : env.channel.data with
    | nil => exact absurd hdd (data_ne_nil_of_ne_empty hch)
    | cons ch t =>
      have hhd : env.channel.data.head? = some ch := by rw [hdd]; rfl
      by_cases hp : ch = '#'
      · simp [subscribeCallback, hch, normChan, hdd, hm, hhd, hp]
      · simp [subscribeCallback, hch, normChan, hdd, hm, hhd, hp]

theorem subscribe_delivery_behaviour_witness :
    subscribeCallback (some { channel := "foo", message := "hi" }) =
      .writes [{ msg := { command := "PRIVMSG", params := ["#foo"],
                          trailing := "hi", raw := "" }, underLock := true }] :=
  ((subscribe_delivery_behaviour { channel := "foo", message := "hi" }).2.2.2
    (by decide) (by decide)).trans (by decide)

/-- Claim C10: for a config that passed validation, the channel-name
normalizations never read out of range: `join`'s `channels[i][0]` reads
are safe because validation guarantees every listed channel name is
non-empty (so `join` cannot panic), and the subscribe callback reads
`msg.Channel[0]` only after its explicit non-empty check (so it cannot
panic on any payload). -/
theorem validated_normalization_safe (c : Connection) (h : c.validate = none) :
    (join c.publish.channels).isSome = true ∧
    (∀ payload : Option BrokerEnvelope, subscribeCallback payload ≠ .panic) := by
  constructor
  · have hch := validate_none_channels h
    by_cases hnil : c.publish.channels.length = 0
    · unfold join
      rw [if_pos hnil]
      rfl
    · unfold join
      rw [if_neg hnil, normChanList_eq _ hch]
      rfl
  · intro payload
    cases payload with
    | none => simp [subscribeCallback]
    | some env =>
      by_cases hch : env.channel = ""
      · simp [subscribeCallback, hch]
      · cases hdd : env.channel.data with
        | nil => exact absurd hdd (data_ne_nil_of_ne_empty hch)
        | cons ch t =>
          by_cases hm : env.message = ""
          · simp [subscribeCallback, hch, normChan, hdd, hm]
          · simp [subscribeCallback, hch, normChan, hdd, hm]

theorem validated_normalization_safe_witness :
    (join ["chan"]).isSome = true ∧
      subscribeCallback (some { channel := "", message := "y" }) ≠ .panic := by
  have h := validated_normalization_safe
    { nick := "bot", pass := "oauth:token",
      publish := { topic := "irc/out", qos := 0, channels := ["chan"] },
      subscribe := { topic := "", qos := 0 } } (by decide)
  exact ⟨h.1, h.2 (some { channel := "", message := "y" })⟩

/-- Claim C9 (counterexample): the config is NOT immutable after
validation.  For the validated config whose publish channel list is
["foo"], the variadic call `join(conn, c.Publish.Channels...)` passes the
config's backing array and `join` rewrites it in place, so after `join`
the config's channel list is ["#foo"], not the original config. -/
theorem join_mutates_config :
    Connection.validate
      { nick := "bot", pass := "oauth:token",
        publish := { topic := "irc/out", qos := 0, channels := ["foo"] },
        subscribe := { topic := "", qos := 0 } } = none ∧
    configAfterJoin
      { nick := "bot", pass := "oauth:token",
        publish := { topic := "irc/out", qos := 0, channels := ["foo"] },
        subscribe := { topic := "", qos := 0 } } =
      some { nick := "bot", pass := "oauth:token",
             publish := { topic := "irc/out", qos := 0, channels := ["#foo"] },
             subscribe := { topic := "", qos := 0 } } ∧
    (["#foo"] : List String) ≠ ["foo"] := by
  decide

/-- Claim C9 (amended): after a config passes validation, the only
mutation any subsequent operation performs on it is `join`'s in-place
channel-name normalization: `configAfterJoin` succeeds without panic,
leaves nick, pass, the publish topic and QOS and the whole subscribe spec
unchanged, replaces the channel list by its `'#'`-normalized image, and
the resulting config is thereafter a fixed point (normalizing again
changes nothing; the relay loop, subscribe callback and shutdown waiter
never write to the config at all). -/
theorem config_after_join_amended (c : Connection) (h : c.validate = none) :
    ∃ c2 : Connection, configAfterJoin c = some c2 ∧
      c2.nick = c.nick ∧ c2.pass = c.pass ∧
      c2.publish.topic = c.publish.topic ∧ c2.publish.qos = c.publish.qos ∧
      c2.subscribe = c.subscribe ∧
      c2.publish.channels = c.publish.channels.map normChanTotal ∧
      configAfterJoin c2 = some c2 := by
  have hch := validate_none_channels h
  by_cases hnil : c.publish.channels = []
  · have hj : join c.publish.channels = some (c.publish.channels, []) := by
      unfold join
      rw [if_pos (by rw [hnil]; rfl)]
    have hcfg : configAfterJoin c = some c := by
      unfold configAfterJoin
      rw [hj]
    refine ⟨c, hcfg, rfl, rfl, rfl, rfl, rfl, ?_, hcfg⟩
    rw [hnil]
    rfl
  · have hlen : ¬ (c.publish.channels.length = 0) :=
      fun hl => hnil (List.length_eq_zero.mp hl)
    have hj : join c.publish.channels =
        some (c.publish.channels.map normChanTotal,
          [{ command := "JOIN",
             params := [String.intercalate "," (c.publish.channels.map normChanTotal)],
             trailing := "", raw := "" }]) := by
      unfold join
      rw [if_neg hlen, normChanList_eq _ hch]
    refine ⟨{ c with publish := { c.publish with
                channels := c.publish.channels.map normChanTotal } },
      ?_, rfl, rfl, rfl, rfl, rfl, rfl, ?_⟩
    · unfold configAfterJoin
      rw [hj]
    · have hch2 : ∀ s ∈ c.publish.channels.map normChanTotal, s ≠ "" := by
        intro s hs
        rcases List.mem_map.mp hs with ⟨t2, ht2, rfl⟩
        exact normChanTotal_ne_empty (hch t2 ht2)
      have hmapid : (c.publish.channels.map normChanTotal).map normChanTotal =
          c.publish.channels.map normChanTotal := by
        rw [List.map_map]
        apply List.map_congr_left
        intro t2 ht2
        exact normChanTotal_idem (hch t2 ht2)
      have hlen2 : ¬ ((c.publish.channels.map normChanTotal).length = 0) := by
        rw [List.length_map]
        exact hlen
      have hj2 : join (c.publish.channels.map normChanTotal) =
          some (c.publish.channels.map normChanTotal,
            [{ command := "JOIN",
               params := [String.intercalate "," (c.publish.channels.map normChanTotal)],
               trailing := "", raw := "" }]) := by
        unfold join
        rw [if_neg hlen2, normChanList_eq _ hch2, hmapid]
      unfold configAfterJoin
      rw [hj2]

theorem config_after_join_amended_witness :
    ∃ c2 : Connection,
      configAfterJoin
        { nick := "bot", pass := "oauth:token",
          publish := { topic := "irc/out", qos := 0, channels := ["foo"] },
          subscribe := { topic := "", qos := 0 } } = some c2 ∧
      c2.publish.channels = ["#foo"] ∧ configAfterJoin c2 = some c2 := by
  obtain ⟨c2, h1, h2, h3, h4, h5, h6, h7, h8⟩ :=
    config_after_join_amended
      { nick := "bot", pass := "oauth:token",
        publish := { topic := "irc/out", qos := 0, channels := ["foo"] },
        subscribe := { topic := "", qos := 0 } } (by decide)
  refine ⟨c2, h1, ?_, h8⟩
  rw [h7]
  decide

/-- Claim C6 (counterexample): a `join` failure is NOT merely
connection-local.  With the dial, login and capability request all
succeeding and `join` failing, `Connection.run`'s setup passes the error
to `log.Fatal` (main.go:173-175), terminating the whole process, instead
of abandoning only that connection. -/
theorem join_failure_process_fatal :
    runSetup false false false true = .processFatal ∧
    runSetup false false false true ≠ .abandoned := by
  decide

/-- Claim C6 (amended): a TLS dial, login, or capability-request failure
inside `createIRCConn` abandons only that connection — the error is
logged with `log.Println`, the task returns before `join` ever runs, and
the other connections and the process continue — while a `join` failure
is fatal to the whole process; with no failure the connection proceeds to
its read loop. -/
theorem setup_error_scope_amended :
    (∀ l cr j, runSetup true l cr j = .abandoned) ∧
    (∀ cr j, runSetup false true cr j = .abandoned) ∧
    (∀ j, runSetup false false true j = .abandoned) ∧
    runSetup false false false true = .processFatal ∧
    runSetup false false false false = .running := by
  refine ⟨?_, ?_, ?_, rfl, rfl⟩
  · intro l cr j; rfl
  · intro cr j; rfl
  · intro j; rfl

/-- Claim C7 (counterexample): a quit-send failure during shutdown is not
survived with a zero exit.  The waiter passes the encode error to
`log.Fatal` (main.go:181-183), so with one connection whose quit encode
fails the process exits with code 1, contradicting the claimed normal
zero exit after every relay loop completes. -/
theorem quit_failure_nonzero_exit :
    (shutdownWaiter true).2 = true ∧ shutdownExitCode [true] = 1 ∧
      shutdownExitCode [true] ≠ 0 := by
  decide

/-- Claim C7 (amended): on the process-wide interrupt each connection's
shutdown waiter attempts exactly one quit message on its session under
the connection's lock; a quit-send failure is logged (by `log.Fatal`) and
never retried but terminates the process with exit code 1; only when
every connection's quit encode succeeds does the process exit normally
with code zero after all relay loops complete. -/
theorem shutdown_quit_amended (b : Bool) (fs : List Bool) :
    (shutdownWaiter b).1 = [{ msg := quitMessage, underLock := true }] ∧
    (shutdownWaiter b).2 = b ∧
    ((∀ f ∈ fs, f = false) → shutdownExitCode fs = 0) ∧
    (true ∈ fs → shutdownExitCode fs = 1) := by
  refine ⟨rfl, rfl, ?_, ?_⟩
  · intro h
    have hany : fs.any (fun b2 => b2) = false := by
      rw [List.any_eq_false]
      intro f hf
      simp [h f hf]
    simp [shutdownExitCode, hany]
  · intro h
    have hany : fs.any (fun b2 => b2) = true :=
      List.any_eq_true.mpr ⟨true, h, rfl⟩
    simp [shutdownExitCode, hany]

theorem shutdown_quit_amended_witness :
    shutdownExitCode [false] = 0 ∧ shutdownExitCode [true, false] = 1 :=
  ⟨(shutdown_quit_amended false [false]).2.2.1 (by decide),
   (shutdown_quit_amended true [true, false]).2.2.2 (by decide)⟩

/-- Claim C8 (counterexample): after a RECONNECT directive has been
processed, further message processing on another connection IS possible.
Starting with connection 0 holding a RECONNECT and connection 1 holding
an ordinary PRIVMSG, the interleaving "connection 0 processes RECONNECT,
connection 1 processes its message, the exec fires" is a valid trace —
the one-second sleep before `restartProcess` (main.go:282) keeps the
sibling goroutines running — and its processed log records connection 1's
message after the directive. -/
theorem sibling_processing_after_reconnect :
    (runTrace
      { queues :=
          [[{ command := "RECONNECT", params := [], trailing := "",
              raw := ":tmi.twitch.tv RECONNECT" }],
           [{ command := "PRIVMSG", params := ["#chan"], trailing := "hello",
              raw := ":user PRIVMSG #chan :hello" }]],
        sleeping := [], execDone := false, processed := [] }
      [.proc 0, .proc 1, .exec]).map RelayState.processed =
      some
        [(0, { command := "RECONNECT", params := [], trailing := "",
               raw := ":tmi.twitch.tv RECONNECT" }),
         (1, { command := "PRIVMSG", params := ["#chan"], trailing := "hello",
               raw := ":user PRIVMSG #chan :hello" })] := by
  decide

/-- Claim C8 (amended): a decoded RECONNECT is first handled like any
other non-PING message — including its optional publish to the configured
topic — and ends its iteration in the restart path with no session write;
the observing connection processes no further messages (it sleeps until
the exec), after the exec has replaced the process image no connection
takes any step (so the restart fires at most once and ends every trace it
occurs in), the exec step is only possible after some connection observed
the directive, and `restartProcess` is fatal when `syscall.Exec` fails
while a successful exec replaces the process in place with the saved
binary path, arguments and environment.  Sibling connections may,
however, process messages during the fixed delay before the exec (see
the counterexample). -/
theorem reconnect_restart_amended (debug : Bool) (c : Connection)
    (m : IRCMessage) (s t : RelayState) (i : Nat) (a : RelayAction)
    (img : ProcessImage) :
    (m.command = "RECONNECT" →
      (runLoopStep debug c (.ok m)).outcome = .restart ∧
      (runLoopStep debug c (.ok m)).writes = [] ∧
      (runLoopStep debug c (.ok m)).publishes =
        (if c.publish.topic ≠ "" then [(c.publish.topic, c.publish.qos, m)] else [])) ∧
    (i ∈ s.sleeping → relayStep s (.proc i) = none) ∧
    (s.execDone = true → relayStep s a = none) ∧
    (relayStep s .exec = some t → t.execDone = true ∧ s.sleeping ≠ []) ∧
    restartProcess img true = .fatalExit ∧
    restartProcess img false = .replacedInPlace img := by
  refine ⟨?_, ?_, ?_, ?_, rfl, rfl⟩
  · intro h
    refine ⟨?_, ?_, ?_⟩ <;> simp [runLoopStep, h]
  · intro hi
    by_cases hex : s.execDone = true
    · simp [relayStep, hex]
    · simp [relayStep, hex, hi]
  · intro hex
    cases a <;> simp [relayStep, hex]
  · intro ht
    simp only [relayStep] at ht
    by_cases hex : s.execDone = true
    · rw [if_pos hex] at ht
      cases ht
    · rw [if_neg hex] at ht
      by_cases hsl : s.sleeping.isEmpty = true
      · rw [if_pos hsl] at ht
        cases ht
      · rw [if_neg hsl] at ht
        have h2 := Option.some.inj ht
        refine ⟨?_, ?_⟩
        · rw [← h2]
        · intro hnil
          rw [hnil] at hsl
          exact hsl rfl

theorem reconnect_restart_amended_witness :
    relayStep { queues := [[]], sleeping := [0], execDone := false, processed := [] }
      (.proc 0) = none ∧
    relayStep { queues := [[]], sleeping := [0], execDone := true, processed := [] }
      (.proc 1) = none ∧
    (({ queues := [[]], sleeping := [0], execDone := true,
        processed := [] } : RelayState).execDone = true ∧
      ({ queues := [[]], sleeping := [0], execDone := false,
         processed := [] } : RelayState).sleeping ≠ []) ∧
    (runLoopStep false
      { nick := "bot", pass := "oauth:token",
        publish := { topic := "", qos := 0, channels := [] },
        subscribe := { topic := "irc/in", qos := 0 } }
      (.ok { command := "RECONNECT", params := [], trailing := "",
             raw := ":tmi.twitch.tv RECONNECT" })).outcome = .restart :=
  ⟨(reconnect_restart_amended false
      { nick := "bot", pass := "oauth:token",
        publish := { topic := "", qos := 0, channels := [] },
        subscribe := { topic := "irc/in", qos := 0 } }
      { command := "RECONNECT", params := [], trailing := "",
        raw := ":tmi.twitch.tv RECONNECT" }
      { queues := [[]], sleeping := [0], execDone := false, processed := [] }
      { queues := [[]], sleeping := [0], execDone := true, processed := [] }
      0 (.proc 0) { argv0 := "relay", argv := ["relay"], envv := [] }).2.1
      (by decide),
   (reconnect_restart_amended false
      { nick := "bot", pass := "oauth:token",
        publish := { topic := "", qos := 0, channels := [] },
        subscribe := { topic := "irc/in", qos := 0 } }
      { command := "RECONNECT", params := [], trailing := "",
        raw := ":tmi.twitch.tv RECONNECT" }
      { queues := [[]], sleeping := [0], execDone := true, processed := [] }
      { queues := [[]], sleeping := [0], execDone := true, processed := [] }
      0 (.proc 1) { argv0 := "relay", argv := ["relay"], envv := [] }).2.2.1
      rfl,
   (reconnect_restart_amended false
      { nick := "bot", pass := "oauth:token",
        publish := { topic := "", qos := 0, channels := [] },
        subscribe := { topic := "irc/in", qos := 0 } }
      { command := "RECONNECT", params := [], trailing := "",
        raw := ":tmi.twitch.tv RECONNECT" }
      { queues := [[]], sleeping := [0], execDone := false, processed := [] }
      { queues := [[]], sleeping := [0], execDone := true, processed := [] }
      0 .exec { argv0 := "relay", argv := ["relay"], envv := [] }).2.2.2.1
      (by decide),
   ((reconnect_restart_amended false
      { nick := "bot", pass := "oauth:token",
        publish := { topic := "", qos := 0, channels := [] },
        subscribe := { topic := "irc/in", qos := 0 } }
      { command := "RECONNECT", params := [], trailing := "",
        raw := ":tmi.twitch.tv RECONNECT" }
      { queues := [[]], sleeping := [0], execDone := false, processed := [] }
      { queues := [[]], sleeping := [0], execDone := true, processed := [] }
      0 (.proc 0) { argv0 := "relay", argv := ["relay"], envv := [] }).1
      rfl).1⟩
